import Mathlib

/-!
# A verification development for the finance-gpt RAG pipeline

This file gives a shallow embedding, in Lean 4, of the core
retrieval-augmented-generation pipeline of the finance-gpt repository
(`frontend/rag/`): ticker extraction, relevance ranking, context
composition, answer generation with its fallback policy, and the
ingestion/dedup path.  Each definition is translated directly from the
Python source file named in its doc comment.

Modelling conventions:
* Python `float` values are modelled as exact rationals (`ℚ`).
* Python dictionaries with a fixed key set are modelled as structures;
  a key that the code reads with `dict.get(key, default)` and that may
  be absent at runtime is modelled as an `Option` field (`none` =
  absent), otherwise as a plain field.
* Python `set` values materialised with `list(...)` are modelled with
  `List.dedup` (Python set iteration order is unspecified; every claim
  below uses only the set semantics of such lists).
* Python string primitives (`split`, `upper`, `lower`, substring test)
  are modelled by structurally recursive functions on `List Char`, so
  that concrete runs reduce inside the kernel.
* Calls to external services (vector index, completion service,
  logging) are modelled by a `World` record of oracle functions
  returning `Except PyExc _`; a Python `raise` is the `.error` case and
  a `try/except` is a `match` on the `Except` value.
-/

/-! ## String helpers (Python string primitives used by the source) -/

/-- Python regex word character `\w` (ASCII model): letters, digits, underscore. -/
def isWordChar (c : Char) : Bool := c.isAlphanum || c == '_'

/-- ASCII uppercase letter, i.e. the character class `[A-Z]`. -/
def isUpperAlpha (c : Char) : Bool := c.isUpper

/-- Python `s.upper()` (ASCII model). -/
def pyUpper (s : String) : String := ⟨s.toList.map Char.toUpper⟩

/-- Python `s.lower()` (ASCII model). -/
def pyLower (s : String) : String := ⟨s.toList.map Char.toLower⟩

/-- `needle` is a contiguous sublist of the list: auxiliary for the
Python substring test. -/
def infixAux (needle : List Char) : List Char → Bool
  | [] => needle.isEmpty
  | c :: cs => needle.isPrefixOf (c :: cs) || infixAux needle cs

/-- Python substring test `needle in hay`. -/
def strContains (hay needle : String) : Bool := infixAux needle.toList hay.toList

/-- Maximal runs of characters satisfying `p` (accumulator is kept
reversed and flushed at run boundaries). -/
def runsAux (p : Char → Bool) : List Char → List Char → List (List Char)
  | acc, [] => if acc = [] then [] else [acc.reverse]
  | acc, c :: cs =>
      if p c then runsAux p (c :: acc) cs
      else if acc = [] then runsAux p [] cs else acc.reverse :: runsAux p [] cs

/-- Python `s.split()` with the result taken as a set
(`set(s.split())`): maximal whitespace-free runs, deduplicated. -/
def pyWordList (s : String) : List String :=
  ((runsAux (fun c => !c.isWhitespace) [] s.toList).map String.mk).dedup

/-! ## News-item dictionaries and the relevance ranker
(`frontend/rag/utils.py`, `rank_news_by_relevance`) -/

/-- A news-item dictionary as handled by `rank_news_by_relevance` and
`format_news_for_context`.  The code reads `headline`, `summary`,
`ticker`, `source` with `item.get(k, "")`-style defaults, so an absent
key is indistinguishable from its default and these are plain fields;
`relevance_score` may genuinely be absent before the ranker runs, so it
is an `Option`. -/
structure NewsDict where
  headline : String := ""
  summary : String := ""
  ticker : String := ""
  source : String := ""
  relevance_score : Option ℚ := none
deriving DecidableEq

/-- The sort key used by `rank_news_by_relevance`:
`x.get("relevance_score", 0)`. -/
def rankKey (x : NewsDict) : ℚ := x.relevance_score.getD 0

/-- `|words(query) ∩ words(headline)|` (case-insensitive, whitespace
tokenised), from the headline clause of `calculate_relevance_score`. -/
def headline_overlap (query : String) (item : NewsDict) : ℕ :=
  ((pyWordList (pyLower query)).filter
    (fun w => decide (w ∈ pyWordList (pyLower item.headline)))).length

/-- `|words(query) ∩ words(summary)|`, from the summary clause of
`calculate_relevance_score`. -/
def summary_overlap (query : String) (item : NewsDict) : ℕ :=
  ((pyWordList (pyLower query)).filter
    (fun w => decide (w ∈ pyWordList (pyLower item.summary)))).length

/-- The inner closure `calculate_relevance_score` of
`rank_news_by_relevance` (`frontend/rag/utils.py` lines 295-320).
The `datetime` recency clause of the source is a no-op (`pass`). -/
def calculate_relevance_score (query : String) (tickers : List String)
    (item : NewsDict) : ℚ :=
  (if pyUpper item.ticker ∈ tickers then (1 : ℚ)/2 else 0)
    + (headline_overlap query item : ℚ) * (1/10)
    + (summary_overlap query item : ℚ) * (1/20)

/-- The mutation loop `for item in news_items: item["relevance_score"] =
calculate_relevance_score(item)` (`frontend/rag/utils.py` lines 323-324).
Because the loop mutates the input dictionaries in place, this list (in
original order) is also the state of the caller's `news_items` list
after `rank_news_by_relevance` returns. -/
def assign_relevance_scores (news_items : List NewsDict) (query : String)
    (tickers : List String) : List NewsDict :=
  news_items.map (fun item =>
    { item with relevance_score := some (calculate_relevance_score query tickers item) })

/-- The ordering used for `sorted(news_items, key=lambda x:
x.get("relevance_score", 0), reverse=True)`: `a` may precede `b` iff
`a`'s key is at least `b`'s. -/
def rankRel (a b : NewsDict) : Prop := rankKey b ≤ rankKey a

instance : DecidableRel rankRel :=
  fun a b => inferInstanceAs (Decidable (rankKey b ≤ rankKey a))

instance : IsTotal NewsDict rankRel :=
  ⟨fun a b => le_total (rankKey b) (rankKey a)⟩

instance : IsTrans NewsDict rankRel :=
  ⟨fun _ _ _ hab hbc => le_trans hbc hab⟩

/-- `rank_news_by_relevance` (`frontend/rag/utils.py` lines 275-326).
Python's `sorted` is a stable sort by key; it is modelled by
`List.insertionSort rankRel`, which is proved below to be weakly
descending by key and stable — the two properties that characterise the
output of a stable sort uniquely, so this is extensionally the
function the source computes. -/
def rank_news_by_relevance (news_items : List NewsDict) (query : String)
    (tickers : List String) : List NewsDict :=
  match news_items with
  | [] => []
  | _ :: _ =>
      List.insertionSort rankRel (assign_relevance_scores news_items query tickers)

example : rank_news_by_relevance [] "anything" ["AAPL"] = [] := rfl

example : pyWordList "a  b a" = ["b", "a"] := by decide

/-! ## Ticker extraction (`frontend/rag/utils.py`) -/

/-- The fixed known-ticker set `COMMON_TICKERS` of `frontend/rag/utils.py`. -/
def COMMON_TICKERS : List String :=
  ["AAPL", "MSFT", "GOOGL", "GOOG", "AMZN", "TSLA", "META", "NVDA", "BRK.A",
   "BRK.B", "JPM", "JNJ", "V", "PG", "UNH", "HD", "MA", "BAC", "ABBV", "PFE",
   "KO", "AVGO", "PEP", "TMO", "COST", "DIS", "ABT", "DHR", "VZ", "ADBE",
   "NFLX", "XOM", "WMT", "CRM", "LLY", "ORCL", "ACN", "CVX", "MRK", "QCOM",
   "TXN", "AMD", "HON", "NKE", "IBM", "INTC", "BA", "GS", "CAT", "AMGN",
   "SBUX", "INTU", "BKNG", "ISRG"]

/-- The keyword set `FINANCIAL_KEYWORDS` of `frontend/rag/utils.py`. -/
def FINANCIAL_KEYWORDS : List String :=
  ["stock", "stocks", "market", "trading", "investment", "portfolio",
   "earnings", "revenue", "profit", "loss", "dividend", "shares", "price",
   "valuation", "bull", "bear", "volatility", "analysis", "forecast",
   "outlook"]

/-- The `company_mappings` dictionary of `extract_tickers_from_query`. -/
def company_mappings : List (String × String) :=
  [("APPLE", "AAPL"), ("MICROSOFT", "MSFT"), ("GOOGLE", "GOOGL"),
   ("ALPHABET", "GOOGL"), ("AMAZON", "AMZN"), ("TESLA", "TSLA"),
   ("META", "META"), ("FACEBOOK", "META"), ("NVIDIA", "NVDA"),
   ("BERKSHIRE", "BRK.A"), ("JPMORGAN", "JPM"), ("JOHNSON", "JNJ"),
   ("VISA", "V"), ("PROCTER", "PG"), ("GAMBLE", "PG"), ("NETFLIX", "NFLX"),
   ("DISNEY", "DIS"), ("WALMART", "WMT"), ("COCA", "KO"), ("COLA", "KO"),
   ("INTEL", "INTC"), ("BOEING", "BA"), ("GOLDMAN", "GS"), ("SACHS", "GS"),
   ("STARBUCKS", "SBUX"), ("ADOBE", "ADBE")]

/-- `re.findall(r"\b[A-Z]{1,5}\b", query_upper)`: the word-character runs
of the uppercased query (a `\b` boundary exists exactly at the ends of a
maximal `\w`-run) that consist of 1-5 uppercase letters. -/
def potential_tickers (query_upper : String) : List String :=
  ((runsAux isWordChar [] query_upper.toList).filter
    (fun run => run.length ≤ 5 && run.all isUpperAlpha)).map String.mk

/-- `determine_query_type` (`frontend/rag/utils.py` lines 157-196).
The `tickers` argument is the extracted set, modelled as a
duplicate-free list. -/
def determine_query_type (query : String) (tickers : List String) : String :=
  let query_lower := pyLower query
  if tickers.length = 1 then "stock_specific"
  else if 1 < tickers.length then "multi_stock_comparison"
  else if ["market", "economy", "sector", "industry", "overall", "general"].any
      (fun t => strContains query_lower t) then "market_general"
  else if ["news", "latest", "recent", "update", "announcement"].any
      (fun t => strContains query_lower t) then "news_request"
  else if ["analyze", "analysis", "forecast", "predict", "outlook"].any
      (fun t => strContains query_lower t) then "analysis_request"
  else if ["invest", "buy", "sell", "portfolio", "recommend"].any
      (fun t => strContains query_lower t) then "investment_advice"
  else "general_financial"

/-- Whether the next character position is a `\b` word boundary when the
previous character is a word character (end of input, or a non-word
character). -/
def boundaryAfter : List Char → Bool
  | [] => true
  | c :: _ => !isWordChar c

/-- Whether `rest` (the characters after a `$`) starts with 1-5
uppercase letters followed by a `\b` boundary. -/
def dollarMatchAfter (rest : List Char) : Bool :=
  (List.range 5).any (fun i =>
    decide (i + 1 ≤ rest.length)
      && (rest.take (i + 1)).all isUpperAlpha
      && boundaryAfter (rest.drop (i + 1)))

/-- Auxiliary scan for `re.search(r"\$[A-Z]{1,5}\b", query)`. -/
def hasDollarTickerAux : List Char → Bool
  | [] => false
  | c :: cs => (c == '$' && dollarMatchAfter cs) || hasDollarTickerAux cs

/-- `re.search(r"\$[A-Z]{1,5}\b", query)` is not `None`: somewhere in the
query a `$` is followed by 1-5 uppercase letters and a word boundary. -/
def hasDollarTicker (query : String) : Bool := hasDollarTickerAux query.toList

/-- The number of financial keywords occurring (as substrings) in the
lowercased query: `sum(1 for keyword in FINANCIAL_KEYWORDS if keyword in
query_lower)`. -/
def financial_keyword_hits (query : String) : ℕ :=
  (FINANCIAL_KEYWORDS.filter (fun k => strContains (pyLower query) k)).length

/-- `calculate_extraction_confidence` (`frontend/rag/utils.py` lines
199-231), translated clause by clause: base 0.4 for a nonempty ticker
set, +0.2 for more than one ticker, + `min(0.1 * keyword hits, 0.3)`,
+0.2 for a `$TICKER` pattern, the total capped at 1.0. -/
def calculate_extraction_confidence (query : String) (tickers : List String) : ℚ :=
  let c1 : ℚ := if tickers ≠ [] then (2/5 + if 1 < tickers.length then 1/5 else 0) else 0
  let c2 : ℚ := c1 + min ((financial_keyword_hits query : ℚ) * (1/10)) (3/10)
  let c3 : ℚ := if hasDollarTicker query then c2 + 1/5 else c2
  min c3 1

/-- The result model `TickerExtractionResult` (`frontend/rag/model.py`
lines 47-54). -/
structure TickerExtractionResult where
  tickers : List String
  confidence : ℚ
  query_type : String
deriving DecidableEq

/-- `extract_tickers_from_query` (`frontend/rag/utils.py` lines 91-154):
direct 1-5 letter token matches against `COMMON_TICKERS`, plus
company-name substring matches mapped to tickers, collected into a set
(modelled by `List.dedup`). -/
def extract_tickers_from_query (query : String) : TickerExtractionResult :=
  let query_upper := pyUpper query
  let direct := (potential_tickers query_upper).filter
    (fun t => COMMON_TICKERS.contains t)
  let mapped := (company_mappings.filter
    (fun p => strContains query_upper p.1)).map Prod.snd
  let found_tickers := (direct ++ mapped).dedup
  { tickers := found_tickers,
    confidence := calculate_extraction_confidence query found_tickers,
    query_type := determine_query_type query found_tickers }

example : (extract_tickers_from_query "AAPL vs MSFT").tickers = ["AAPL", "MSFT"] := by decide

example : (extract_tickers_from_query "AAPL vs MSFT").query_type = "multi_stock_comparison" := by decide

example : hasDollarTicker "buy $TSLA now" = true := by decide

example : hasDollarTicker "buy $TOOLONG now" = false := by decide

/-! ## Context composition (`frontend/rag/utils.py`,
`format_news_for_context`) -/

/-- One rendered item of the context block: `f"{i}. {headline}\n
Summary: {summary}\n   Ticker: {ticker}\n   Source: {source}\n"`. -/
def format_news_entry (i : ℕ) (item : NewsDict) : String :=
  toString i ++ ". " ++ item.headline ++ "\n   Summary: " ++ item.summary
    ++ "\n   Ticker: " ++ item.ticker ++ "\n   Source: " ++ item.source ++ "\n"

/-- `format_news_for_context` (`frontend/rag/utils.py` lines 250-272):
at most the top 10 items, rendered with a fixed 4-line template and
joined with newlines; a literal sentinel for the empty list.  (The
`item.get(k, default)` reads are total on the `NewsDict` model; in the
pipeline every item carries all keys.) -/
def format_news_for_context (news_items : List NewsDict) : String :=
  match news_items with
  | [] => "No recent news available."
  | _ :: _ =>
      String.intercalate "\n"
        ((List.enumFrom 1 (news_items.take 10)).map (fun p => format_news_entry p.1 p.2))

/-! ## Structured output models (`frontend/rag/model.py`) -/

/-- `NewsItem` (`frontend/rag/model.py` lines 24-32).  The pydantic
model places no constraint beyond the field types. -/
structure NewsItem where
  headline : String
  summary : String
  ticker : String
  source : String
  relevance_score : Option ℚ := none
  date : Option String := none
deriving DecidableEq

/-- `FinancialAnswer` (`frontend/rag/model.py` lines 35-44).  Note that
`sentiment` and `confidence_score` are plain optional fields: the
pydantic schema itself enforces neither the three-valued sentiment nor
the `[0,1]` range. -/
structure FinancialAnswer where
  summary : String
  key_insights : List String
  top_news : List NewsItem
  mentioned_tickers : List String
  sentiment : Option String := none
  confidence_score : Option ℚ := none
  market_outlook : Option String := none
deriving DecidableEq

/-! ## Error taxonomy (`frontend/rag/error_handling.py` lines 20-53) -/

/-- The application error classes (each carries its `str(error)`
message); `generic` stands for any exception outside the taxonomy. -/
inductive PyExc where
  | finnhubAPI (m : String)
  | vectorStore (m : String)
  | llmError (m : String)
  | mongoDB (m : String)
  | tickerExtraction (m : String)
  | generic (m : String)
deriving DecidableEq

/-- `str(error)`. -/
def PyExc.msg : PyExc → String
  | .finnhubAPI m => m
  | .vectorStore m => m
  | .llmError m => m
  | .mongoDB m => m
  | .tickerExtraction m => m
  | .generic m => m

/-! ## Retrieved documents and their parsing
(`frontend/rag/llm_chain.py` lines 54-82) -/

/-- A document returned by the vector store (`langchain` `Document`):
`page_content` plus the `ticker`/`source` metadata entries, which may be
absent (`metadata.get`). -/
structure RetrievedDoc where
  page_content : String
  ticker : Option String := none
  source : Option String := none
deriving DecidableEq

/-- The content parse of `retrieve_and_generate_response` step 3: if
`"Headline:" in content`, split on `"Summary:"`; when that yields at
least two parts, the headline is part 0 with `"Headline:"` removed and
stripped, and the summary is part 1 up to `"Ticker:"`, stripped. -/
def parse_headline_summary (content : String) : String × String :=
  if strContains content "Headline:" then
    let parts := content.splitOn "Summary:"
    if 2 ≤ parts.length then
      (((parts.getD 0 "").replace "Headline:" "").trim,
       (((parts.getD 1 "").splitOn "Ticker:").getD 0 "").trim)
    else ("", "")
  else ("", "")

/-- Step 3 of `retrieve_and_generate_response`: build the news-item
dictionary for one retrieved document, with the `or`-fallbacks for empty
fields and `getattr(doc, "relevance_score", 0.0)` (a langchain
`Document` has no such attribute, so the default `0.0` is taken). -/
def doc_to_news_item (doc : RetrievedDoc) : NewsDict :=
  let hs := parse_headline_summary doc.page_content
  { headline := if hs.1 = "" then "No headline available" else hs.1,
    summary := if hs.2 = "" then "No summary available" else hs.2,
    ticker := doc.ticker.getD "",
    source := doc.source.getD "Unknown",
    relevance_score := some 0 }

/-! ## The generation prompt (`frontend/rag/llm_chain.py` lines 92-142) -/

/-- `parser.get_format_instructions()`: the fixed schema-description
text produced by the pydantic output parser (external library constant;
its exact content plays no role in any claim). -/
def format_instructions : String := "format-instructions-for-FinancialAnswer"

/-- A two-message chat prompt (system + human), as built by
`ChatPromptTemplate.from_messages`. -/
structure Prompt where
  system : String
  human : String
deriving DecidableEq

/-- `", ".join(tickers)` with the `"None specified"` fallback used when
the extracted ticker list is empty. -/
def tickers_display (tickers : List String) : String :=
  match tickers with
  | [] => "None specified"
  | _ :: _ => String.intercalate ", " tickers

/-- The system message of the generation prompt with the `{context}`,
`{query_type}`, `{tickers}` and `{format_instructions}` slots filled
(surrounding instruction text condensed to its key sentences; no claim
depends on the boilerplate). -/
def prompt_system_text (context query_type tickers_str : String) : String :=
  "You are an expert financial analyst specializing in stock market analysis "
    ++ "and investment insights. Based on the following context from recent "
    ++ "financial news and data, provide a structured analysis.\n"
    ++ "Context from recent financial news:\n" ++ context
    ++ "\nUser\x27s query type: " ++ query_type
    ++ "\nExtracted tickers: " ++ tickers_str
    ++ "\n" ++ format_instructions ++ "\n"
    ++ "Be objective, data-driven, and provide specific examples from the news "
    ++ "when possible. If information is limited, acknowledge this in your "
    ++ "confidence score."

/-! ## The answer generator (`frontend/rag/llm_chain.py`,
`retrieve_and_generate_response`) -/

/-- The external collaborators of one query, as oracle functions:
the vector-index similarity search (`frontend/rag/vector_search.py`,
`similarity_search`), the completion-service chain
(`prompt | llm | parser`, whose `.error` case covers both service
failures and schema-validation failures), and the logging call
`log_user_interaction`.  An `.error` result models a raised exception. -/
structure World where
  similarity_search : String → Int → Except PyExc (List RetrievedDoc)
  llm_invoke : Prompt → Except PyExc FinancialAnswer
  log_interaction : String → FinancialAnswer → Except PyExc Unit

/-- Steps 1-4 composed: news items of the retrieved documents, ranked
against the query and its extracted tickers. -/
def pipeline_ranked (query : String) (docs : List RetrievedDoc) : List NewsDict :=
  rank_news_by_relevance (docs.map doc_to_news_item) query
    (extract_tickers_from_query query).tickers

/-- Steps 5-6 composed: the prompt sent to the completion service for a
query and its retrieved documents. -/
def pipeline_prompt (query : String) (docs : List RetrievedDoc) : Prompt :=
  { system := prompt_system_text
      (format_news_for_context (pipeline_ranked query docs))
      (extract_tickers_from_query query).query_type
      (tickers_display (extract_tickers_from_query query).tickers),
    human := query }

/-- Step 9 conversion of a ranked news dictionary into a structured
`NewsItem` (`frontend/rag/llm_chain.py` lines 152-161): `date` is not
passed, `relevance_score` reads the assigned score with default `0.0`. -/
def news_dict_to_item (d : NewsDict) : NewsItem :=
  { headline := d.headline, summary := d.summary, ticker := d.ticker,
    source := d.source, relevance_score := some (d.relevance_score.getD 0),
    date := none }

/-- The fallback answer built in the `except` clause of
`retrieve_and_generate_response` (`frontend/rag/llm_chain.py` lines
167-178).  Note this is the generic apology, not the per-error-kind
canned text of `create_fallback_response`. -/
def llm_chain_fallback (e : PyExc) : FinancialAnswer :=
  { summary := "I apologize, but I encountered an error while processing your query: "
      ++ e.msg,
    key_insights := ["Unable to process query due to technical error"],
    top_news := [],
    mentioned_tickers := [],
    sentiment := some "neutral",
    confidence_score := some 0,
    market_outlook := some "Unable to provide outlook due to error" }

/-- `retrieve_and_generate_response` (`frontend/rag/llm_chain.py` lines
27-178).  The whole body is one `try` whose `except` returns
`llm_chain_fallback`; step 9 reconciles the model answer by unioning the
extracted tickers into `mentioned_tickers` and overwriting `top_news`
with the top five ranked items. -/
def retrieve_and_generate_response (w : World) (query : String)
    (num_retrievals : Int) : FinancialAnswer :=
  match (do
    let docs ← w.similarity_search query num_retrievals
    let response ← w.llm_invoke (pipeline_prompt query docs)
    pure { response with
      mentioned_tickers :=
        (response.mentioned_tickers ++ (extract_tickers_from_query query).tickers).dedup,
      top_news := ((pipeline_ranked query docs).take 5).map news_dict_to_item }
    : Except PyExc FinancialAnswer) with
  | .ok r => r
  | .error e => llm_chain_fallback e

/-! ## Fallback policy (`frontend/rag/error_handling.py`,
`create_fallback_response`) -/

/-- The canned summary/insights pair selected by error kind
(`frontend/rag/error_handling.py` lines 166-192).  `TickerExtractionError`
and unclassified errors take the generic `else` branch. -/
def fallback_texts (e : PyExc) : String × List String :=
  match e with
  | .finnhubAPI _ =>
      ("I\x27m currently unable to fetch the latest financial data from external sources. Please try again in a few minutes.",
       ["External financial data service is temporarily unavailable"])
  | .vectorStore _ =>
      ("I\x27m experiencing issues with my knowledge base. I can provide general information but may not have the latest updates.",
       ["Knowledge base temporarily unavailable",
        "Consider asking about general financial concepts"])
  | .llmError _ =>
      ("I\x27m having trouble processing your request right now. Please try rephrasing your question or try again later.",
       ["Language model temporarily unavailable", "Try asking simpler questions"])
  | .mongoDB _ =>
      ("I\x27m experiencing database connectivity issues. Some features may be limited.",
       ["Database connection issues", "Historical data may be unavailable"])
  | _ =>
      ("I encountered an unexpected error while processing your request: " ++ e.msg,
       ["Unexpected system error occurred", "Please try again or contact support"])

/-- `create_fallback_response` (`frontend/rag/error_handling.py` lines
155-202).  The `query` argument is accepted and unused, as in the
source. -/
def create_fallback_response (_query : String) (e : PyExc) : FinancialAnswer :=
  { summary := (fallback_texts e).1,
    key_insights := (fallback_texts e).2,
    top_news := [],
    mentioned_tickers := [],
    sentiment := some "neutral",
    confidence_score := some 0,
    market_outlook := some "Unable to provide outlook due to system error" }

/-! ## The pipeline wrapper (`frontend/rag/rag_pipeline.py`) -/

/-- A JSON-like value, for the plain dict returned to the frontend. -/
inductive JVal where
  | jstr : String → JVal
  | jnum : ℚ → JVal
  | jnull : JVal
  | jlist : List JVal → JVal
  | jdict : List (String × JVal) → JVal

/-- An optional string field serialised into the response. -/
def optStrJ : Option String → JVal
  | none => JVal.jnull
  | some s => JVal.jstr s

/-- An optional number field serialised into the response. -/
def optNumJ : Option ℚ → JVal
  | none => JVal.jnull
  | some q => JVal.jnum q

/-- `item.dict()` for a `NewsItem` (pydantic serialisation). -/
def news_item_to_jdict (n : NewsItem) : JVal :=
  JVal.jdict
    [("headline", JVal.jstr n.headline), ("summary", JVal.jstr n.summary),
     ("ticker", JVal.jstr n.ticker), ("source", JVal.jstr n.source),
     ("relevance_score", optNumJ n.relevance_score), ("date", optStrJ n.date)]

/-- The response dictionary built from a `FinancialAnswer` in
`RAGPipeline.process_query` (`frontend/rag/rag_pipeline.py` lines
50-58): the seven keys, with `related_news` the serialised `top_news`
and `sources` always the empty list. -/
def answer_response_dict (r : FinancialAnswer) : List (String × JVal) :=
  [("summary", JVal.jstr r.summary),
   ("key_insights", JVal.jlist (r.key_insights.map JVal.jstr)),
   ("mentioned_tickers", JVal.jlist (r.mentioned_tickers.map JVal.jstr)),
   ("sentiment", optStrJ r.sentiment),
   ("confidence_score", optNumJ r.confidence_score),
   ("related_news", JVal.jlist (r.top_news.map news_item_to_jdict)),
   ("sources", JVal.jlist [])]

/-- The response dictionary built in the `except` clause of
`process_query` (`frontend/rag/rag_pipeline.py` lines 76-85) from
`create_fallback_response`: same seven keys, `related_news` hard-coded
to the empty list. -/
def fallback_response_dict (query : String) (e : PyExc) : List (String × JVal) :=
  let fb := create_fallback_response query e
  [("summary", JVal.jstr fb.summary),
   ("key_insights", JVal.jlist (fb.key_insights.map JVal.jstr)),
   ("mentioned_tickers", JVal.jlist (fb.mentioned_tickers.map JVal.jstr)),
   ("sentiment", optStrJ fb.sentiment),
   ("confidence_score", optNumJ fb.confidence_score),
   ("related_news", JVal.jlist []),
   ("sources", JVal.jlist [])]

/-- The constructor configuration of `RAGPipeline`
(`frontend/rag/rag_pipeline.py` lines 13-23), with its default values. -/
structure RAGPipelineConfig where
  model : String := "gemini-2.5-flash"
  include_news : Bool := true
  max_results : Int := 5
  analysis_depth : String := "Standard"

/-- The default-constructed `RAGPipeline()` configuration. -/
def defaultConfig : RAGPipelineConfig := {}

/-- Python `caller or instance_value` for an optional int argument
(`max_results = max_results or self.max_results`): `None` and `0` are
falsy and fall back to the instance value; any other value — including
negative ones — is passed through. -/
def effective_or_int (caller : Option Int) (inst_val : Int) : Int :=
  match caller with
  | none => inst_val
  | some m => if m = 0 then inst_val else m

/-- Python `caller or instance_value` for an optional string argument
(`model = model or self.model`): `None` and `""` fall back. -/
def effective_or_str (caller : Option String) (inst_val : String) : String :=
  match caller with
  | none => inst_val
  | some s => if s = "" then inst_val else s

/-- `RAGPipeline.process_query` (`frontend/rag/rag_pipeline.py` lines
25-85).  The effective `model`, `include_news` and `analysis_depth`
values are computed, as in the source, and then never used: only `query`
and the effective `max_results` reach `retrieve_and_generate_response`.
Since that function returns a `FinancialAnswer` on every path, the
`isinstance(result, dict)` and final `else` branches of the source are
unreachable and have no counterpart here.  The outer `try/except` is the
`match` on the `Except` value; the only fallible call after
`retrieve_and_generate_response` returns is `log_user_interaction`. -/
def process_query (cfg : RAGPipelineConfig) (query : String)
    (model : Option String) (include_news : Option Bool)
    (max_results : Option Int) (analysis_depth : Option String)
    (w : World) : List (String × JVal) :=
  let _model := effective_or_str model cfg.model
  let _include_news := include_news.getD cfg.include_news
  let eff_max_results := effective_or_int max_results cfg.max_results
  let _analysis_depth := effective_or_str analysis_depth cfg.analysis_depth
  match (do
    let result := retrieve_and_generate_response w query eff_max_results
    let response := answer_response_dict result
    let _ ← w.log_interaction query result
    pure response
    : Except PyExc (List (String × JVal))) with
  | .ok r => r
  | .error e => fallback_response_dict query e

/-! ## Ingestion and dedup (`frontend/rag/vector_search.py`,
`bulk_check_duplicates` and `store_documents`) -/

/-- A scraped news document, reduced to the fields the dedup logic
reads (`url`) plus the content fields used downstream. -/
structure ScrapedDoc where
  url : String
  headline : String := ""
  summary : String := ""
  ticker : String := ""
deriving DecidableEq

/-- `bulk_check_duplicates` (`frontend/rag/vector_search.py` lines
50-67): the urls present in the store among `document_urls`
(`find({"url": {"$in": urls}})`, collected into a set). -/
def bulk_check_duplicates (store_urls : List String)
    (document_urls : List String) : List String :=
  (store_urls.filter (fun u => document_urls.contains u)).dedup

/-- The documents `store_documents` inserts for a scraped batch
(`frontend/rag/vector_search.py` lines 86-101): those whose url is not
among the duplicates reported by `bulk_check_duplicates`.  (The pydantic
`DocumentModel` validation is the identity on this reduced record.) -/
def store_documents_inserts (store : List ScrapedDoc)
    (scraped : List ScrapedDoc) : List ScrapedDoc :=
  let urls := scraped.map ScrapedDoc.url
  let duplicate_urls := bulk_check_duplicates (store.map ScrapedDoc.url) urls
  scraped.filter (fun d => !(duplicate_urls.contains d.url))

/-- The state of the document store after `store_documents` runs:
the old records plus the `insert_many` batch. -/
def store_documents_after (store : List ScrapedDoc)
    (scraped : List ScrapedDoc) : List ScrapedDoc :=
  store ++ store_documents_inserts store scraped

/-! ## Helper lemmas about the stable sort model -/

/-- The relevance score ignores the `relevance_score` field itself, so
re-scoring an annotated item gives the same score. -/
theorem calculate_relevance_score_update (query : String) (tickers : List String)
    (item : NewsDict) (v : Option ℚ) :
    calculate_relevance_score query tickers { item with relevance_score := v }
      = calculate_relevance_score query tickers item := rfl

/-- Filtering on an exact key value commutes with `orderedInsert`: the
inserted element lands in front of its key class. -/
theorem filter_orderedInsert_rankKey (k : ℚ) (a : NewsDict) (l : List NewsDict) :
    (l.orderedInsert rankRel a).filter (fun x => decide (rankKey x = k))
      = if rankKey a = k
          then a :: l.filter (fun x => decide (rankKey x = k))
          else l.filter (fun x => decide (rankKey x = k)) := by
  induction l with
  | nil =>
      by_cases hk : rankKey a = k <;>
        simp [List.orderedInsert, List.filter, hk]
  | cons b t ih =>
      by_cases hab : rankRel a b
      · by_cases hk : rankKey a = k <;>
          simp [List.orderedInsert, if_pos hab, List.filter_cons, hk]
      · have hlt : rankKey a < rankKey b := lt_of_not_le hab
        by_cases hbk : rankKey b = k
        · have hak : ¬ rankKey a = k := by
            intro hak
            exact absurd (hak.trans hbk.symm ▸ hlt) (lt_irrefl _)
          simp [List.orderedInsert, if_neg hab, List.filter_cons, hbk, hak, ih]
        · by_cases hak : rankKey a = k <;>
            simp [List.orderedInsert, if_neg hab, List.filter_cons, hbk, hak, ih]

/-- Stability of the sort model: for every key value, the sorted list
restricted to that key value is the input restricted to that key value,
in the same order. -/
theorem filter_insertionSort_rankKey (k : ℚ) (l : List NewsDict) :
    (List.insertionSort rankRel l).filter (fun x => decide (rankKey x = k))
      = l.filter (fun x => decide (rankKey x = k)) := by
  induction l with
  | nil => rfl
  | cons b t ih =>
      by_cases hbk : rankKey b = k <;>
        simp [List.insertionSort, filter_orderedInsert_rankKey, ih,
          List.filter_cons, hbk]

/-- In a list that is pairwise weakly descending by key, an element with
a strictly larger key occurs strictly earlier. -/
theorem indexOf_lt_of_rankKey_gt :
    ∀ (l : List NewsDict), l.Pairwise rankRel → ∀ {a b : NewsDict},
      a ∈ l → b ∈ l → rankKey b < rankKey a → l.indexOf a < l.indexOf b := by
  intro l
  induction l with
  | nil => intro _ a b ha; cases ha
  | cons c t ih =>
      intro hp a b ha hb hk
      rcases List.pairwise_cons.mp hp with ⟨hc, ht⟩
      by_cases hac : c = a
      · subst hac
        have hbc : c ≠ b := by
          intro h; subst h; exact absurd hk (lt_irrefl _)
        rw [List.indexOf_cons_self, List.indexOf_cons_ne _ hbc]
        exact Nat.succ_pos _
      · have ha' : a ∈ t := by
          rcases List.mem_cons.mp ha with h | h
          · exact absurd h.symm hac
          · exact h
        have hbc : c ≠ b := by
          intro h
          subst h
          exact absurd hk (not_lt_of_le (hc a ha'))
        have hb' : b ∈ t := by
          rcases List.mem_cons.mp hb with h | h
          · exact absurd h.symm hbc
          · exact h
        rw [List.indexOf_cons_ne _ hac, List.indexOf_cons_ne _ hbc]
        exact Nat.succ_lt_succ (ih ht ha' hb' hk)

/-- `rank_news_by_relevance` is the stable sort of the annotated list in
every case (for the empty list both sides are `[]`). -/
theorem rank_news_eq_sort (l : List NewsDict) (q : String) (t : List String) :
    rank_news_by_relevance l q t
      = List.insertionSort rankRel (assign_relevance_scores l q t) := by
  cases l <;> rfl

/-- Every element of the annotated list carries exactly its computed
relevance score. -/
theorem mem_assign_relevance_scores {l : List NewsDict} {q : String}
    {t : List String} {d : NewsDict} (hd : d ∈ assign_relevance_scores l q t) :
    d.relevance_score = some (calculate_relevance_score q t d) := by
  rcases List.mem_map.mp hd with ⟨item, _, rfl⟩
  rfl

/-- Re-annotating an already annotated item is the identity. -/
theorem update_eq_self_of_annotated {q : String} {t : List String} {d : NewsDict}
    (h : d.relevance_score = some (calculate_relevance_score q t d)) :
    { d with relevance_score := some (calculate_relevance_score q t d) } = d := by
  cases d with
  | mk hl sm tk src rs => rw [← h]

/-- Re-annotating an already annotated list is the identity. -/
theorem assign_eq_self_of_annotated {q : String} {t : List String} :
    ∀ {l : List NewsDict},
      (∀ d ∈ l, d.relevance_score = some (calculate_relevance_score q t d)) →
      assign_relevance_scores l q t = l := by
  intro l
  induction l with
  | nil => intro _; rfl
  | cons d ds ih =>
      intro h
      have hd := update_eq_self_of_annotated (h d (List.mem_cons_self d ds))
      have hds := ih (fun x hx => h x (List.mem_cons_of_mem d hx))
      simpa [assign_relevance_scores, hd] using hds

/-- C5: `rank_news_by_relevance` assigns each item the score
`0.5·[ticker matched] + 0.1·headline overlap + 0.05·summary overlap`
(case-insensitive, whitespace tokenised) and returns the same items
sorted by score in descending order, stably (equal-score items keep
their input order); in particular an item with a strictly larger score —
e.g. a ticker match against identical word overlaps, worth exactly
`+0.5` — is ranked strictly earlier. -/
theorem C5_rank_news_spec (news_items : List NewsDict) (query : String)
    (tickers : List String) :
    (rank_news_by_relevance news_items query tickers).Perm
        (assign_relevance_scores news_items query tickers)
    ∧ (∀ d ∈ rank_news_by_relevance news_items query tickers,
        d.relevance_score = some (calculate_relevance_score query tickers d))
    ∧ (rank_news_by_relevance news_items query tickers).Pairwise rankRel
    ∧ (∀ k : ℚ,
        (rank_news_by_relevance news_items query tickers).filter
            (fun x => decide (rankKey x = k))
          = (assign_relevance_scores news_items query tickers).filter
              (fun x => decide (rankKey x = k)))
    ∧ (∀ a b : NewsDict, a ∈ rank_news_by_relevance news_items query tickers →
        b ∈ rank_news_by_relevance news_items query tickers →
        rankKey b < rankKey a →
        (rank_news_by_relevance news_items query tickers).indexOf a
          < (rank_news_by_relevance news_items query tickers).indexOf b)
    ∧ (∀ x y : NewsDict,
        pyUpper x.ticker ∈ tickers → pyUpper y.ticker ∉ tickers →
        headline_overlap query x = headline_overlap query y →
        summary_overlap query x = summary_overlap query y →
        calculate_relevance_score query tickers y + 1/2
          = calculate_relevance_score query tickers x) := by
  rw [rank_news_eq_sort]
  have hsorted :
      (List.insertionSort rankRel
        (assign_relevance_scores news_items query tickers)).Pairwise rankRel :=
    List.sorted_insertionSort rankRel _
  refine ⟨List.perm_insertionSort rankRel _, ?_, hsorted, ?_, ?_, ?_⟩
  · intro d hd
    exact mem_assign_relevance_scores ((List.perm_insertionSort rankRel _).mem_iff.mp hd)
  · intro k
    exact filter_insertionSort_rankKey k _
  · intro a b ha hb hk
    exact indexOf_lt_of_rankKey_gt _ hsorted ha hb hk
  · intro x y hx hy hh hs
    simp only [calculate_relevance_score, if_pos hx, if_neg hy, hh, hs]
    ring

/-- Witness for C5 at a concrete input. -/
theorem C5_rank_news_spec_witness :
    (rank_news_by_relevance [{ ticker := "AAPL" }] "q" ["AAPL"]).Perm
      (assign_relevance_scores [{ ticker := "AAPL" }] "q" ["AAPL"]) :=
  (C5_rank_news_spec [{ ticker := "AAPL" }] "q" ["AAPL"]).1

/-- A news item that lacks a `relevance_score` key. -/
def c6_item : NewsDict := { headline := "alpha" }

/-- C6 counterexample: `rank_news_by_relevance` does not leave its input
items unchanged — the scoring loop writes a `relevance_score` entry into
every input dictionary, so after the call the caller's list (modelled by
`assign_relevance_scores`) differs from the original. -/
theorem C6_counterexample :
    assign_relevance_scores [c6_item] "alpha beta" [] ≠ [c6_item] := by
  decide

/-- C6 amended: the only mutation is the `relevance_score` write — all
other fields of every input item are preserved, in order — and the
function is deterministic and idempotent: re-ranking an already ranked
list returns it unchanged. -/
theorem C6_rank_news_frame (news_items : List NewsDict) (query : String)
    (tickers : List String) :
    (assign_relevance_scores news_items query tickers).map NewsDict.headline
        = news_items.map NewsDict.headline
    ∧ (assign_relevance_scores news_items query tickers).map NewsDict.summary
        = news_items.map NewsDict.summary
    ∧ (assign_relevance_scores news_items query tickers).map NewsDict.ticker
        = news_items.map NewsDict.ticker
    ∧ (assign_relevance_scores news_items query tickers).map NewsDict.source
        = news_items.map NewsDict.source
    ∧ rank_news_by_relevance
        (rank_news_by_relevance news_items query tickers) query tickers
      = rank_news_by_relevance news_items query tickers := by
  refine ⟨?_, ?_, ?_, ?_, ?_⟩
  · rw [assign_relevance_scores, List.map_map]; rfl
  · rw [assign_relevance_scores, List.map_map]; rfl
  · rw [assign_relevance_scores, List.map_map]; rfl
  · rw [assign_relevance_scores, List.map_map]; rfl
  · rw [rank_news_eq_sort news_items, rank_news_eq_sort]
    have hann : ∀ d ∈ List.insertionSort rankRel
        (assign_relevance_scores news_items query tickers),
        d.relevance_score = some (calculate_relevance_score query tickers d) :=
      fun d hd =>
        mem_assign_relevance_scores
          ((List.perm_insertionSort rankRel _).mem_iff.mp hd)
    rw [assign_eq_self_of_annotated hann]
    exact List.Sorted.insertionSort_eq (List.sorted_insertionSort rankRel _)

/-- C7: the extraction confidence is `min 1` of (0.4 if any ticker was
found, plus 0.2 if more than one, plus `min(0.1 × keyword hits, 0.3)`,
plus 0.2 for a `$TICKER` pattern); it always lies in `[0,1]`; the
confidence reported by `extract_tickers_from_query` is exactly this
value at the extracted ticker set; and with no tickers, no keyword hits
and no `$` pattern it is `0`. -/
theorem C7_extraction_confidence (query : String) (tickers : List String) :
    calculate_extraction_confidence query tickers
      = min 1 ((if tickers ≠ [] then (2 : ℚ)/5 else 0)
          + (if 1 < tickers.length then (1 : ℚ)/5 else 0)
          + min ((financial_keyword_hits query : ℚ) * (1/10)) (3/10)
          + (if hasDollarTicker query then (1 : ℚ)/5 else 0))
    ∧ 0 ≤ calculate_extraction_confidence query tickers
    ∧ calculate_extraction_confidence query tickers ≤ 1
    ∧ (extract_tickers_from_query query).confidence
        = calculate_extraction_confidence query
            (extract_tickers_from_query query).tickers
    ∧ (tickers = [] → financial_keyword_hits query = 0 →
        hasDollarTicker query = false →
        calculate_extraction_confidence query tickers = 0) := by
  have hkw : (0 : ℚ) ≤ min ((financial_keyword_hits query : ℚ) * (1/10)) (3/10) :=
    le_min (by positivity) (by norm_num)
  refine ⟨?_, ?_, ?_, rfl, ?_⟩
  · unfold calculate_extraction_confidence
    cases tickers with
    | nil =>
        by_cases hd : hasDollarTicker query <;>
          simp [hd, min_comm]
    | cons x tl =>
        by_cases hd : hasDollarTicker query <;>
          by_cases hl : 1 < (x :: tl).length <;>
            simp [hd, hl, min_comm]
  · unfold calculate_extraction_confidence
    refine le_min ?_ (by norm_num)
    by_cases ht : tickers = [] <;> by_cases hl : 1 < tickers.length <;>
      by_cases hd : hasDollarTicker query <;>
        simp [ht, hl, hd] <;> positivity
  · exact min_le_right _ _
  · intro ht hkw0 hd0
    simp [calculate_extraction_confidence, ht, hkw0, hd0]
    norm_num

/-- Witness for C7 at a concrete query with no tickers, keywords or `$`
pattern. -/
theorem C7_extraction_confidence_witness :
    calculate_extraction_confidence "hello" [] = 0 :=
  (C7_extraction_confidence "hello" []).2.2.2.2 rfl (by decide) (by decide)

/-- C1: for every query (including the empty string), every
configuration and every behaviour of the external services — including
any of them raising — `process_query` returns a mapping whose keys are
exactly the seven output keys, in particular it returns (rather than
propagates an exception) on all paths: all fallible calls are modelled
in `w` and both branches of the outer `match` produce the full
dictionary. -/
theorem C1_process_query_keys (cfg : RAGPipelineConfig) (query : String)
    (model : Option String) (include_news : Option Bool)
    (max_results : Option Int) (analysis_depth : Option String) (w : World) :
    (process_query cfg query model include_news max_results analysis_depth w).map
        Prod.fst
      = ["summary", "key_insights", "mentioned_tickers", "sentiment",
         "confidence_score", "related_news", "sources"] := by
  simp only [process_query]
  cases hlog : w.log_interaction query
      (retrieve_and_generate_response w query
        (effective_or_int max_results cfg.max_results)) with
  | ok u =>
      simp [hlog, answer_response_dict, Bind.bind, Except.bind, pure, Except.pure]
  | error e =>
      simp [hlog, fallback_response_dict, Bind.bind, Except.bind, pure, Except.pure]

/-- A concrete world in which the completion service is down. -/
def trivialWorld : World :=
  { similarity_search := fun _ _ => Except.ok [],
    llm_invoke := fun _ => Except.error (PyExc.llmError "down"),
    log_interaction := fun _ _ => Except.ok () }

/-- C10: two runs of `process_query` that differ only in the `model`,
`include_news` and `analysis_depth` configuration values (instance or
per-call) return identical results for the same query, `max_results` and
external behaviour: those three parameters are accepted and never used. -/
theorem C10_config_independence (c1 c2 : RAGPipelineConfig)
    (hm : c1.max_results = c2.max_results) (query : String) (w : World)
    (mo1 mo2 : Option String) (inc1 inc2 : Option Bool) (mr : Option Int)
    (ad1 ad2 : Option String) :
    process_query c1 query mo1 inc1 mr ad1 w
      = process_query c2 query mo2 inc2 mr ad2 w := by
  simp only [process_query]
  rw [hm]

/-- A second configuration differing from the default in every accepted
field except `max_results`. -/
def alteredConfig : RAGPipelineConfig :=
  { model := "other", include_news := false, analysis_depth := "Quick" }

/-- Witness for C10 at concrete diverging configurations. -/
theorem C10_config_independence_witness :
    process_query defaultConfig "q" (some "model-a") (some false) none
        (some "Deep") trivialWorld
      = process_query alteredConfig "q" (some "model-b") (some true) none
          (some "Standard") trivialWorld :=
  C10_config_independence defaultConfig alteredConfig
    rfl "q" trivialWorld (some "model-a") (some "model-b") (some false)
    (some true) none (some "Deep") (some "Standard")

/-- A world whose vector search reports whether it was asked for a
non-positive number of documents. -/
def probeWorld : World :=
  { similarity_search := fun _ n =>
      if n ≤ 0 then Except.error (PyExc.vectorStore "nonpositive request")
      else Except.ok [],
    llm_invoke := fun _ => Except.error (PyExc.llmError "unused"),
    log_interaction := fun _ _ => Except.ok () }

/-- C8 counterexample: the caller-supplied `max_results` is not bounded
to a small positive integer — `process_query` with `max_results = -3`
issues the similarity search with count `-3` (observable through
`probeWorld`, whose search fails exactly on non-positive counts, which
is what the summary of the returned fallback reports). -/
theorem C8_counterexample :
    effective_or_int (some (-3)) defaultConfig.max_results = -3
    ∧ (process_query defaultConfig "q" none none (some (-3)) none
          probeWorld).lookup "summary"
        = some (JVal.jstr
            ("I apologize, but I encountered an error while processing your query: "
              ++ "nonpositive request")) :=
  ⟨rfl, rfl⟩

/-- C8 amended: the effective retrieval count falls back to the
instance value when the caller passes `None` (or `0`, both falsy), the
default-constructed pipeline uses `5`, and any other caller value —
negative or arbitrarily large — is passed through to the similarity
search without bounding. -/
theorem C8_max_results_policy (cfg : RAGPipelineConfig) (m : Int)
    (hm : m ≠ 0) :
    effective_or_int none cfg.max_results = cfg.max_results
    ∧ effective_or_int (some 0) cfg.max_results = cfg.max_results
    ∧ effective_or_int (some m) cfg.max_results = m
    ∧ defaultConfig.max_results = 5 := by
  refine ⟨rfl, rfl, ?_, rfl⟩
  simp [effective_or_int, hm]

/-- Witness for C8 (amended) at a concrete non-zero caller value. -/
theorem C8_max_results_policy_witness :
    effective_or_int (some 1000000) defaultConfig.max_results = 1000000 :=
  (C8_max_results_policy defaultConfig 1000000 (by decide)).2.2.1

/-- C9 counterexample: a scraped batch that repeats a url is inserted in
full — `bulk_check_duplicates` only checks against the store, not within
the batch — so after `store_documents` the store holds two records with
the same url. -/
theorem C9_counterexample :
    ((store_documents_after []
        [{ url := "u" }, { url := "u" }]).map ScrapedDoc.url)
      = ["u", "u"]
    ∧ ¬ ((store_documents_after []
        [{ url := "u" }, { url := "u" }]).map ScrapedDoc.url).Nodup := by
  exact ⟨rfl, by decide⟩

/-- The inserted batch is exactly the scraped documents whose url is not
already in the store. -/
theorem store_documents_inserts_eq (store scraped : List ScrapedDoc) :
    store_documents_inserts store scraped
      = scraped.filter
          (fun d => !((store.map ScrapedDoc.url).contains d.url)) := by
  unfold store_documents_inserts bulk_check_duplicates
  apply List.filter_congr
  intro d hd
  by_cases h : d.url ∈ store.map ScrapedDoc.url
  · simp [h]
    exact ⟨d, hd, rfl⟩
  · simp [h]

/-- C9 amended: provided the store satisfies the one-record-per-url
invariant and the scraped batch itself repeats no url, `store_documents`
preserves the invariant; and re-running the same ingestion against the
unchanged response inserts zero new records. -/
theorem C9_dedup_invariant (store scraped : List ScrapedDoc)
    (hstore : (store.map ScrapedDoc.url).Nodup)
    (hscraped : (scraped.map ScrapedDoc.url).Nodup) :
    ((store_documents_after store scraped).map ScrapedDoc.url).Nodup
    ∧ store_documents_inserts (store_documents_after store scraped) scraped
        = [] := by
  constructor
  · rw [store_documents_after, store_documents_inserts_eq, List.map_append]
    rw [List.nodup_append]
    refine ⟨hstore, ?_, ?_⟩
    · exact hscraped.sublist ((List.filter_sublist _).map _)
    · intro u hu hunew
      rcases List.mem_map.mp hunew with ⟨d, hd, rfl⟩
      rcases List.mem_filter.mp hd with ⟨_, hpred⟩
      simp at hpred
      rcases List.mem_map.mp hu with ⟨x, hx, hxu⟩
      exact hpred x hx hxu
  · rw [store_documents_inserts_eq]
    apply List.filter_eq_nil_iff.mpr
    intro d hd
    simp only [Bool.not_eq_true', Bool.not_eq_false]
    have hmem : d.url ∈ (store_documents_after store scraped).map ScrapedDoc.url := by
      rw [store_documents_after, List.map_append, List.mem_append]
      by_cases h : d.url ∈ store.map ScrapedDoc.url
      · exact Or.inl h
      · refine Or.inr ?_
        rw [store_documents_inserts_eq]
        exact List.mem_map.mpr ⟨d, List.mem_filter.mpr ⟨hd, by simp [h]⟩, rfl⟩
    simpa using hmem

/-- Witness for C9 (amended) at a concrete store and batch. -/
theorem C9_dedup_invariant_witness :
    ((store_documents_after [{ url := "a" }]
        [{ url := "a" }, { url := "b" }]).map ScrapedDoc.url).Nodup :=
  (C9_dedup_invariant [{ url := "a" }] [{ url := "a" }, { url := "b" }]
    (by decide) (by decide)).1

/-! ## Helper lemmas about the answer generator and the wrapper -/

/-- Lookup of `confidence_score` in the success response dictionary. -/
theorem lookup_confidence (r : FinancialAnswer) :
    (answer_response_dict r).lookup "confidence_score"
      = some (optNumJ r.confidence_score) := by
  simp [answer_response_dict, List.lookup]

/-- Lookup of `sentiment` in the success response dictionary. -/
theorem lookup_sentiment (r : FinancialAnswer) :
    (answer_response_dict r).lookup "sentiment" = some (optStrJ r.sentiment) := by
  simp [answer_response_dict, List.lookup]

/-- Lookup of `summary` in the success response dictionary. -/
theorem lookup_summary (r : FinancialAnswer) :
    (answer_response_dict r).lookup "summary" = some (JVal.jstr r.summary) := by
  simp [answer_response_dict, List.lookup]

/-- Lookup of `mentioned_tickers` in the success response dictionary. -/
theorem lookup_mentioned (r : FinancialAnswer) :
    (answer_response_dict r).lookup "mentioned_tickers"
      = some (JVal.jlist (r.mentioned_tickers.map JVal.jstr)) := by
  simp [answer_response_dict, List.lookup]

/-- Lookup of `related_news` in the success response dictionary. -/
theorem lookup_related (r : FinancialAnswer) :
    (answer_response_dict r).lookup "related_news"
      = some (JVal.jlist (r.top_news.map news_item_to_jdict)) := by
  simp [answer_response_dict, List.lookup]

/-- If the similarity search raises, the answer generator returns the
generic apology fallback for that error. -/
theorem retrieve_error_of_search_error {w : World} {query : String} {n : Int}
    {e : PyExc} (h : w.similarity_search query n = Except.error e) :
    retrieve_and_generate_response w query n = llm_chain_fallback e := by
  unfold retrieve_and_generate_response
  simp [h, Bind.bind, Except.bind]

/-- If the similarity search succeeds and the completion chain raises,
the answer generator returns the generic apology fallback. -/
theorem retrieve_error_of_llm_error {w : World} {query : String} {n : Int}
    {docs : List RetrievedDoc} {e : PyExc}
    (hs : w.similarity_search query n = Except.ok docs)
    (hl : w.llm_invoke (pipeline_prompt query docs) = Except.error e) :
    retrieve_and_generate_response w query n = llm_chain_fallback e := by
  unfold retrieve_and_generate_response
  simp [hs, hl, Bind.bind, Except.bind]

/-- If both external calls succeed, the answer generator returns the
model answer, reconciled: extracted tickers unioned into
`mentioned_tickers` and `top_news` overwritten with the five
highest-ranked retrieved items. -/
theorem retrieve_ok {w : World} {query : String} {n : Int}
    {docs : List RetrievedDoc} {a : FinancialAnswer}
    (hs : w.similarity_search query n = Except.ok docs)
    (hl : w.llm_invoke (pipeline_prompt query docs) = Except.ok a) :
    retrieve_and_generate_response w query n
      = { a with
          mentioned_tickers :=
            (a.mentioned_tickers ++ (extract_tickers_from_query query).tickers).dedup,
          top_news := ((pipeline_ranked query docs).take 5).map news_dict_to_item } := by
  unfold retrieve_and_generate_response
  simp [hs, hl, Bind.bind, Except.bind, pure, Except.pure]

/-- `process_query` returns either the serialised generator answer or a
canned fallback dictionary (when `log_user_interaction` raises). -/
theorem process_query_cases (cfg : RAGPipelineConfig) (query : String)
    (model : Option String) (include_news : Option Bool)
    (max_results : Option Int) (analysis_depth : Option String) (w : World) :
    process_query cfg query model include_news max_results analysis_depth w
        = answer_response_dict
            (retrieve_and_generate_response w query
              (effective_or_int max_results cfg.max_results))
    ∨ ∃ e, process_query cfg query model include_news max_results
          analysis_depth w = fallback_response_dict query e := by
  simp only [process_query]
  cases hlog : w.log_interaction query
      (retrieve_and_generate_response w query
        (effective_or_int max_results cfg.max_results)) with
  | ok u =>
      left
      simp [hlog, Bind.bind, Except.bind, pure, Except.pure]
  | error e =>
      right
      exact ⟨e, by simp [hlog, Bind.bind, Except.bind, pure, Except.pure]⟩

/-- C4: whenever the completion service returns a schema-conforming
answer (both external calls succeed), the reconciled answer's
`mentioned_tickers` is, as a set, the union of the model's tickers and
the step-1 extracted tickers, and its `top_news` is exactly the first
five items of the step-4 ranked list, in ranked order, regardless of the
news the model returned. -/
theorem C4_reconciliation (w : World) (query : String) (n : Int)
    (docs : List RetrievedDoc) (a : FinancialAnswer)
    (hs : w.similarity_search query n = Except.ok docs)
    (hl : w.llm_invoke (pipeline_prompt query docs) = Except.ok a) :
    (∀ t : String,
      t ∈ (retrieve_and_generate_response w query n).mentioned_tickers
        ↔ (t ∈ a.mentioned_tickers
            ∨ t ∈ (extract_tickers_from_query query).tickers))
    ∧ (retrieve_and_generate_response w query n).top_news
        = ((pipeline_ranked query docs).take 5).map news_dict_to_item := by
  rw [retrieve_ok hs hl]
  constructor
  · intro t
    simp [List.mem_dedup, List.mem_append]
  · rfl

/-- An arbitrary well-behaved completion answer mentioning a ticker the
extractor does not produce. -/
def okAnswer : FinancialAnswer :=
  { summary := "all fine",
    key_insights := ["insight"],
    top_news := [{ headline := "model-invented", summary := "n", ticker := "X",
                   source := "model" }],
    mentioned_tickers := ["MSFT"],
    sentiment := some "positive",
    confidence_score := some (1/2),
    market_outlook := none }

/-- A world in which retrieval returns nothing and the completion
service returns `okAnswer`. -/
def okWorld : World :=
  { similarity_search := fun _ _ => Except.ok [],
    llm_invoke := fun _ => Except.ok okAnswer,
    log_interaction := fun _ _ => Except.ok () }

/-- Witness for C4 at a concrete world: the model-invented news item is
discarded in favour of the (here empty) ranked list. -/
theorem C4_reconciliation_witness :
    (retrieve_and_generate_response okWorld "q" 5).top_news
      = ((pipeline_ranked "q" []).take 5).map news_dict_to_item :=
  (C4_reconciliation okWorld "q" 5 [] okAnswer rfl rfl).2

/-- A schema-conforming completion answer with an out-of-range
confidence and an off-vocabulary sentiment: every field has the type the
pydantic model requires, so parsing accepts it. -/
def badAnswer : FinancialAnswer :=
  { summary := "s",
    key_insights := [],
    top_news := [],
    mentioned_tickers := [],
    sentiment := some "bullish",
    confidence_score := some 7,
    market_outlook := none }

/-- A world in which the completion service returns `badAnswer`. -/
def badAnswerWorld : World :=
  { similarity_search := fun _ _ => Except.ok [],
    llm_invoke := fun _ => Except.ok badAnswer,
    log_interaction := fun _ _ => Except.ok () }

/-- C2 counterexample: the schema does not constrain `sentiment` or
`confidence_score`, so a completion answer with `confidence_score = 7`
and `sentiment = "bullish"` parses and is returned unchanged by
`process_query` — the claimed invariant fails. -/
theorem C2_counterexample :
    (process_query defaultConfig "any question" none none none none
        badAnswerWorld).lookup "confidence_score" = some (JVal.jnum 7)
    ∧ (process_query defaultConfig "any question" none none none none
        badAnswerWorld).lookup "sentiment" = some (JVal.jstr "bullish")
    ∧ ¬ ((7 : ℚ) ≤ 1)
    ∧ "bullish" ∉ (["positive", "negative", "neutral"] : List String) :=
  ⟨rfl, rfl, by norm_num, by decide⟩

/-- C2 amended: the invariant holds exactly when the completion answers
themselves satisfy it — the fallback paths always return
`confidence_score = 0` and `sentiment = "neutral"`, and a
schema-conforming answer is passed through unvalidated, so under the
hypothesis that every parsed completion answer has an in-range
confidence and a three-valued sentiment, every `process_query` result
does too. -/
theorem C2_answer_invariant (cfg : RAGPipelineConfig) (query : String)
    (model : Option String) (include_news : Option Bool)
    (max_results : Option Int) (analysis_depth : Option String) (w : World)
    (hval : ∀ p a, w.llm_invoke p = Except.ok a →
      (∃ c, a.confidence_score = some c ∧ 0 ≤ c ∧ c ≤ 1)
      ∧ (∃ s, a.sentiment = some s
          ∧ (s = "positive" ∨ s = "negative" ∨ s = "neutral"))) :
    ∃ c s,
      (process_query cfg query model include_news max_results analysis_depth
          w).lookup "confidence_score" = some (JVal.jnum c)
      ∧ 0 ≤ c ∧ c ≤ 1
      ∧ (process_query cfg query model include_news max_results analysis_depth
          w).lookup "sentiment" = some (JVal.jstr s)
      ∧ (s = "positive" ∨ s = "negative" ∨ s = "neutral") := by
  have hret :
      (retrieve_and_generate_response w query
          (effective_or_int max_results cfg.max_results)).confidence_score
          = some 0
        ∧ (retrieve_and_generate_response w query
            (effective_or_int max_results cfg.max_results)).sentiment
          = some "neutral"
      ∨ ∃ p a, w.llm_invoke p = Except.ok a
        ∧ (retrieve_and_generate_response w query
            (effective_or_int max_results cfg.max_results)).confidence_score
          = a.confidence_score
        ∧ (retrieve_and_generate_response w query
            (effective_or_int max_results cfg.max_results)).sentiment
          = a.sentiment := by
    cases hs : w.similarity_search query
        (effective_or_int max_results cfg.max_results) with
    | error e =>
        rw [retrieve_error_of_search_error hs]
        exact Or.inl ⟨rfl, rfl⟩
    | ok docs =>
        cases hl : w.llm_invoke (pipeline_prompt query docs) with
        | error e =>
            rw [retrieve_error_of_llm_error hs hl]
            exact Or.inl ⟨rfl, rfl⟩
        | ok a =>
            rw [retrieve_ok hs hl]
            exact Or.inr ⟨pipeline_prompt query docs, a, hl, rfl, rfl⟩
  rcases process_query_cases cfg query model include_news max_results
      analysis_depth w with hq | ⟨e, hq⟩
  · rw [hq, lookup_confidence, lookup_sentiment]
    rcases hret with ⟨hc, hsent⟩ | ⟨p, a, hok, hc, hsent⟩
    · exact ⟨0, "neutral", by rw [hc]; rfl, le_refl 0, by norm_num,
        by rw [hsent]; rfl, Or.inr (Or.inr rfl)⟩
    · rcases hval p a hok with ⟨⟨c, hac, hc0, hc1⟩, ⟨s, has, hsv⟩⟩
      exact ⟨c, s, by rw [hc, hac]; rfl, hc0, hc1, by rw [hsent, has]; rfl, hsv⟩
  · rw [hq]
    refine ⟨0, "neutral", rfl, le_refl 0, by norm_num, rfl, Or.inr (Or.inr rfl)⟩

/-- Witness for C2 (amended) at a concrete well-behaved world. -/
theorem C2_answer_invariant_witness :
    ∃ c s,
      (process_query defaultConfig "q" none none none none
          okWorld).lookup "confidence_score" = some (JVal.jnum c)
      ∧ 0 ≤ c ∧ c ≤ 1
      ∧ (process_query defaultConfig "q" none none none none
          okWorld).lookup "sentiment" = some (JVal.jstr s)
      ∧ (s = "positive" ∨ s = "negative" ∨ s = "neutral") :=
  C2_answer_invariant defaultConfig "q" none none none none okWorld
    (fun _ a ha => by
      cases ha
      exact ⟨⟨1/2, rfl, by norm_num, by norm_num⟩, ⟨"positive", rfl, Or.inl rfl⟩⟩)

/-- A world whose vector-index similarity search raises a
`VectorStoreError`. -/
def vectorFailWorld : World :=
  { similarity_search := fun _ _ =>
      Except.error (PyExc.vectorStore "connection refused"),
    llm_invoke := fun _ => Except.error (PyExc.llmError "unused"),
    log_interaction := fun _ _ => Except.ok () }

/-- C3 counterexample: when the similarity search raises, the summary
returned by `process_query` is the generic apology of the inner
`retrieve_and_generate_response` handler carrying the raw error message
— not the canned vector-store message of `create_fallback_response`
(which remains unreached on this path, since the inner `except` catches
first), and it does not reference the knowledge base at all. -/
theorem C3_counterexample :
    (process_query defaultConfig "What is happening" none none none none
        vectorFailWorld).lookup "summary"
      = some (JVal.jstr
          ("I apologize, but I encountered an error while processing your query: "
            ++ "connection refused"))
    ∧ (create_fallback_response "What is happening"
          (PyExc.vectorStore "connection refused")).summary
        = "I\x27m experiencing issues with my knowledge base. I can provide general information but may not have the latest updates."
    ∧ strContains
        ("I apologize, but I encountered an error while processing your query: "
          ++ "connection refused") "knowledge base" = false :=
  ⟨rfl, rfl, by decide⟩

/-- C3 amended: if the similarity search raises a `VectorStoreError`
(and logging succeeds), `process_query` returns `confidence_score = 0`,
`mentioned_tickers = []`, `related_news = []` and the generic apology
summary with the error message appended — the inner fallback of
`retrieve_and_generate_response`, not the knowledge-base canned text. -/
theorem C3_vector_error_fallback (cfg : RAGPipelineConfig) (query : String)
    (model : Option String) (include_news : Option Bool)
    (max_results : Option Int) (analysis_depth : Option String) (w : World)
    (msg : String)
    (hvs : w.similarity_search query
        (effective_or_int max_results cfg.max_results)
      = Except.error (PyExc.vectorStore msg))
    (hlog : ∀ r, w.log_interaction query r = Except.ok ()) :
    (process_query cfg query model include_news max_results analysis_depth
        w).lookup "confidence_score" = some (JVal.jnum 0)
    ∧ (process_query cfg query model include_news max_results analysis_depth
        w).lookup "mentioned_tickers" = some (JVal.jlist [])
    ∧ (process_query cfg query model include_news max_results analysis_depth
        w).lookup "related_news" = some (JVal.jlist [])
    ∧ (process_query cfg query model include_news max_results analysis_depth
        w).lookup "summary"
      = some (JVal.jstr
          ("I apologize, but I encountered an error while processing your query: "
            ++ msg)) := by
  have hret := retrieve_error_of_search_error hvs
  have hq : process_query cfg query model include_news max_results
      analysis_depth w
      = answer_response_dict
          (llm_chain_fallback (PyExc.vectorStore msg)) := by
    simp only [process_query, hret, hlog, Bind.bind, Except.bind, pure,
      Except.pure]
  rw [hq, lookup_confidence, lookup_mentioned, lookup_related,
    lookup_summary]
  exact ⟨rfl, rfl, rfl, rfl⟩

/-- Witness for C3 (amended) at the concrete failing world. -/
theorem C3_vector_error_fallback_witness :
    (process_query defaultConfig "What is happening" none none none none
        vectorFailWorld).lookup "confidence_score" = some (JVal.jnum 0) :=
  (C3_vector_error_fallback defaultConfig "What is happening" none none none
    none vectorFailWorld "connection refused" rfl (fun _ => rfl)).1
